import Mathlib

/-!
# Verification of the hoglet circuit breaker kernel

Shallow embedding of the circuit-breaker kernel of `exaring/hoglet`
(files `hoglet.go`, `breaker.go`, `limiter.go`, `options.go`), faithful to
the Go source.  Conventions used throughout:

* timestamps are `Int` values in unix **microseconds** (the unit the source
  stores in its `openedAt atomic.Int64` fields); durations are likewise in
  microseconds so that the comparisons in the source translate verbatim;
* Go `float64` values are modelled by `ℚ` (exact real arithmetic); in every
  place where a theorem below depends on a float computation, the result is
  robust to rounding and the fact is noted next to the theorem;
* atomics are modelled by sequential state threading: `Load`/`Store`/`Swap`
  become reads and functional updates, and `CompareAndSwap old new` becomes
  `if field = old then new else field` (its sequential semantics);
* `nil` function pointers / `nil` observers become `Option`.
-/

namespace Hoglet

/-- Circuit state, from `hoglet.go`: `StateClosed | StateHalfOpen | StateOpen`
(`opened` stands for Go's `StateOpen`; `open` is a Lean keyword). -/
inductive State where
  | closed
  | halfOpen
  | opened
deriving DecidableEq, Repr

/-- `Circuit.State` (`hoglet.go` lines 197–212):

```go
oa := c.openedAt.Load()
if oa == 0 { return StateClosed }
if c.halfOpenDelay == 0 || time.Since(time.UnixMicro(oa)) < c.halfOpenDelay {
    return StateOpen
}
return StateHalfOpen
```

`now - openedAt` stands for `time.Since(time.UnixMicro(oa))`. -/
def circuitState (openedAt halfOpenDelay now : Int) : State :=
  if openedAt = 0 then State.closed
  else if halfOpenDelay = 0 ∨ now - openedAt < halfOpenDelay then State.opened
  else State.halfOpen

/-- `Circuit.setOpenedAt` (`hoglet.go` lines 232–238):

```go
if i == 0 { c.openedAt.Store(i) } else { c.openedAt.CompareAndSwap(0, i) }
```

Sequential semantics of the CAS: the store happens only if the current
value is `0`. Returns the new `openedAt`. -/
def setOpenedAt (openedAt i : Int) : Int :=
  if i = 0 then 0
  else if openedAt = 0 then i else openedAt

/-- `Circuit.stateForCall` (`hoglet.go` lines 216–228): reads `State()` and,
when half-open, calls `c.setOpenedAt(time.Now().UnixMicro())` intending to
re-stamp `openedAt`. Returns the state together with the resulting
`openedAt`. -/
def stateForCall (openedAt halfOpenDelay now : Int) : State × Int :=
  let s := circuitState openedAt halfOpenDelay now
  if s = State.halfOpen then (s, setOpenedAt openedAt now)
  else (s, openedAt)

/-! ## Breakers (`breaker.go`)

`callable` holds the shared open/half-open/closed logic (`breaker.go` lines
39–68); `EWMABreaker` and `SlidingWindowBreaker` embed it. Internal breaker
states are the same three-valued enum as the circuit's. -/

/-- Result of `callable.state()` (`breaker.go` lines 49–68): the decision and
the resulting `openedAt` (the half-open branch re-stamps it by
`CompareAndSwap(oa, now)`, which sequentially always succeeds since the
current value is the `oa` just loaded). Note this version has no
`halfOpenDelay == 0` special case. -/
def callableState (halfOpenDelay openedAt now : Int) : State × Int :=
  if openedAt = 0 then (State.closed, openedAt)
  else if now - openedAt < halfOpenDelay then (State.opened, openedAt)
  else (State.halfOpen, now)

/-- Go's `math.SmallestNonzeroFloat64`, the minimum positive subnormal
`float64`, stored by `NewEWMABreaker` as the "never observed" sentinel.
Exactly representable in `ℚ`. -/
def smallestNonzeroFloat64 : ℚ := 1 / 2 ^ 1074

/-- State of an `EWMABreaker` (`breaker.go` lines 83–90). `float64` fields
are modelled as `ℚ`. -/
structure EWMABreaker where
  decay : ℚ
  threshold : ℚ
  failureRate : ℚ
  halfOpenDelay : Int
  openedAt : Int
deriving DecidableEq, Repr

/-- `NewEWMABreaker` (`breaker.go` lines 103–116): `decay = 2/(n/2 + 1)` and
`failureRate` seeded with the `math.SmallestNonzeroFloat64` sentinel
("start closed; also work around "initial value" problem"). -/
def NewEWMABreaker (sampleCount : ℕ) (threshold : ℚ) (halfOpenDelay : Int) :
    EWMABreaker where
  decay := 2 / ((sampleCount : ℚ) / 2 + 1)
  threshold := threshold
  failureRate := smallestNonzeroFloat64
  halfOpenDelay := halfOpenDelay
  openedAt := 0

/-- `EWMABreaker.observe` (`breaker.go` lines 135–165), sequentially:

```go
if e.threshold == 0 { return }
if !failure && halfOpen { e.openedAt.Store(0); e.failureRate.Store(e.threshold); return }
var value float64 = 0.0
if failure { value = 1.0 }
failureRate, _ := e.failureRate.Swap(value).(float64)
if failureRate == 0 { failureRate = value }
else { failureRate = (value*e.decay) + (failureRate*(1-e.decay)); e.failureRate.Store(failureRate) }
if failureRate > e.threshold { e.openedAt.CompareAndSwap(0, now) } else { e.openedAt.Store(0) }
```

In the `failureRate == 0` branch the atomic already holds `value` from the
swap, which equals the local `failureRate`; in the other branch the blended
value is stored back, so in both branches the stored rate equals the local
one. -/
def EWMAobserve (e : EWMABreaker) (now : Int) (halfOpen failure : Bool) :
    EWMABreaker :=
  if e.threshold = 0 then e
  else if !failure && halfOpen then
    { e with openedAt := 0, failureRate := e.threshold }
  else
    let value : ℚ := if failure then 1 else 0
    let prev := e.failureRate
    let rate := if prev = 0 then value
      else value * e.decay + prev * (1 - e.decay)
    if rate > e.threshold then
      { e with failureRate := rate,
               openedAt := if e.openedAt = 0 then now else e.openedAt }
    else
      { e with failureRate := rate, openedAt := 0 }

/-! ## Sliding window breaker (`breaker.go` lines 167–269) -/

/-- `time.Duration.Seconds()` for a duration given in microseconds. -/
def secondsOfMicros (micros : Int) : ℚ := (micros : ℚ) / 1000000

/-- State of a `SlidingWindowBreaker` (`breaker.go` lines 168–181). -/
structure SlidingWindowBreaker where
  windowSize : Int
  threshold : ℚ
  currentStart : Int
  currentSuccessCount : Int
  currentFailureCount : Int
  lastSuccessCount : Int
  lastFailureCount : Int
  halfOpenDelay : Int
  openedAt : Int
deriving DecidableEq, Repr

/-- The `lastWindowWeight` computed by `SlidingWindowBreaker.observe`
(`breaker.go` line 254):

```go
lastWindowWeight := (sinceMicros(s.currentStart.Load()).Seconds() - s.windowSize.Seconds()) / s.windowSize.Seconds()
```

with `sinceMicros(cs) = now - cs`. -/
def lastWindowWeight (now currentStart windowSize : Int) : ℚ :=
  (secondsOfMicros (now - currentStart) - secondsOfMicros windowSize) /
    secondsOfMicros windowSize

/-- `weightedFailures` (`breaker.go` line 256):
`float64(lastFailureCount)*lastWindowWeight + float64(currentFailureCount)`. -/
def weightedFailures (lastFailureCount currentFailureCount : Int) (w : ℚ) : ℚ :=
  (lastFailureCount : ℚ) * w + (currentFailureCount : ℚ)

/-- `weightedTotal` (`breaker.go` line 257). -/
def weightedTotal (lastFailureCount lastSuccessCount currentFailureCount
    currentSuccessCount : Int) (w : ℚ) : ℚ :=
  ((lastFailureCount + lastSuccessCount : Int) : ℚ) * w +
    ((currentFailureCount + currentSuccessCount : Int) : ℚ)

/-- `SlidingWindowBreaker.observe` (`breaker.go` lines 220–265), sequential
semantics. The window-rotation CAS always succeeds sequentially (the loaded
`currentStart` is still current). The local variables `lastFailureCount`/
`lastSuccessCount` receive what `Swap` (rotating branch) or `Load`
(non-rotating branch) return — in both cases the PREVIOUS values of the
`last*` atomics, so they are read off `s` before the rotation update. `ℚ`
division by zero yields `0` where Go float division by `0.0` yields
`±Inf`/`NaN`; no theorem below depends on that case. -/
def SWobserve (s : SlidingWindowBreaker) (now : Int) (halfOpen failure : Bool) :
    SlidingWindowBreaker :=
  if !failure && halfOpen then { s with openedAt := 0 }
  else
    -- locals (lines 236–237 Swap returns / lines 240–241 Load)
    let lastF := s.lastFailureCount
    let lastS := s.lastSuccessCount
    -- window rotation of the atomics (lines 235–242)
    let s1 :=
      if s.windowSize < now - s.currentStart then
        { s with currentStart := now,
                 lastFailureCount := s.currentFailureCount,
                 lastSuccessCount := s.currentSuccessCount,
                 currentFailureCount := 0,
                 currentSuccessCount := 0,
                 openedAt := 0 }
      else s
    -- increment; locals take the post-increment current counts (lines 244–250)
    let s2 :=
      if failure then { s1 with currentFailureCount := s1.currentFailureCount + 1 }
      else { s1 with currentSuccessCount := s1.currentSuccessCount + 1 }
    -- weighted failure rate (lines 252–258); line 254 re-loads currentStart
    let w := lastWindowWeight now s2.currentStart s2.windowSize
    let failureRate :=
      weightedFailures lastF s2.currentFailureCount w /
        weightedTotal lastF lastS s2.currentFailureCount s2.currentSuccessCount w
    if failureRate > s2.threshold then
      { s2 with openedAt := if s2.openedAt = 0 then now else s2.openedAt }
    else
      { s2 with openedAt := 0 }

/-! ## The circuit call path (`hoglet.go` lines 250–301)

`Circuit.Call` is modelled sequentially. The per-call observer is invoked
exactly once with the final outcome (claim C1 models the deduplication that
enforces this); in the sequential model the deferred observation in `Call`
is the one that lands (it runs before the deferred
`cancel(internalCancellation)` wakes `observeCtx`, whose duplicate
observation is dropped). Errors returned by `Call` are either the
circuit's own `ErrCircuitOpen` or the wrapped function's error. -/

/-- Which observer closure a breaker returned from its `Call`
(`breaker.go` lines 118–133 / 203–218): the closed-state one observes with
`halfOpen = false`, the half-open one with `halfOpen = true`. `nil` is
`Option.none` at the use site. -/
inductive ObsKind where
  | closed
  | halfOpen
deriving DecidableEq, Repr

/-- An error surfaced by `Circuit.Call`: `ErrCircuitOpen` or an error of the
wrapped function. -/
inductive HogErr (E : Type) where
  | circuitOpen
  | user (e : E)
deriving DecidableEq, Repr

/-- Behaviour of one invocation of the wrapped function: a normal return
(with an optional error) or a panic carrying a value. -/
inductive FnOutcome (OUT E P : Type) where
  | returns (out : OUT) (err : Option E)
  | panics (v : P)
deriving DecidableEq, Repr

/-- How `Circuit.Call` ends: a normal return (Go returns a value and an
error; a `none` error is Go's `nil`) or by re-raising a panic value. -/
inductive CallExit (OUT E P : Type) where
  | ret (out : OUT) (err : Option (HogErr E))
  | panicked (v : P)
deriving DecidableEq, Repr

/-- Result of a modelled `Circuit.Call`: the exit, the breaker state after
the call, and whether the wrapped function was invoked. -/
structure CallResult (σ OUT E P : Type) where
  exit : CallExit OUT E P
  breaker : σ
  fInvoked : Bool
deriving DecidableEq, Repr

/-- `Circuit.Call` (`hoglet.go` lines 250–276), generic over the breaker
state `σ`:

```go
if c.f == nil { return out, nil }
obs := c.observerForCall()
if obs == nil { return out, ErrCircuitOpen }
...
defer func() {
    if err := recover(); err != nil { obs.observe(true); panic(err) }
    obs.observe(c.options.isFailure(err))
}()
return c.f(ctx, in)
```

`breakerCall` is the breaker's `observerForCall`/`Call`, returning the
observer (`none` = Go `nil`) and its updated state; `observe` delivers the
single deduplicated observation; `f = none` is a `nil` wrapped function and
otherwise carries the outcome of this invocation. `default` is the zero
value of `OUT`. -/
def circuitCall {σ OUT E P : Type} [Inhabited OUT]
    (breakerCall : σ → Int → Option ObsKind × σ)
    (observe : σ → Int → ObsKind → Bool → σ)
    (isFailure : Option E → Bool)
    (f : Option (FnOutcome OUT E P)) (s : σ) (now : Int) :
    CallResult σ OUT E P :=
  match f with
  | none => ⟨CallExit.ret default none, s, false⟩
  | some outcome =>
    match breakerCall s now with
    | (none, s1) => ⟨CallExit.ret default (some HogErr.circuitOpen), s1, false⟩
    | (some k, s1) =>
      match outcome with
      | FnOutcome.panics v => ⟨CallExit.panicked v, observe s1 now k true, true⟩
      | FnOutcome.returns out err =>
          ⟨CallExit.ret out (err.map HogErr.user), observe s1 now k (isFailure err), true⟩

/-- `EWMABreaker.Call` (`breaker.go` lines 118–133): dispatch on
`callable.state()`; open returns `nil`. -/
def EWMAcall (e : EWMABreaker) (now : Int) : Option ObsKind × EWMABreaker :=
  match callableState e.halfOpenDelay e.openedAt now with
  | (State.closed, oa) => (some ObsKind.closed, { e with openedAt := oa })
  | (State.halfOpen, oa) => (some ObsKind.halfOpen, { e with openedAt := oa })
  | (State.opened, oa) => (none, { e with openedAt := oa })

/-- The observer closures handed out by `EWMABreaker.Call`: the closed one
runs `e.observe(false, failure)`, the half-open one `e.observe(true, failure)`. -/
def EWMAobserveK (e : EWMABreaker) (now : Int) (k : ObsKind) (failure : Bool) :
    EWMABreaker :=
  match k with
  | ObsKind.closed => EWMAobserve e now false failure
  | ObsKind.halfOpen => EWMAobserve e now true failure

/-- `SlidingWindowBreaker.Call` (`breaker.go` lines 203–218). -/
def SWcall (s : SlidingWindowBreaker) (now : Int) :
    Option ObsKind × SlidingWindowBreaker :=
  match callableState s.halfOpenDelay s.openedAt now with
  | (State.closed, oa) => (some ObsKind.closed, { s with openedAt := oa })
  | (State.halfOpen, oa) => (some ObsKind.halfOpen, { s with openedAt := oa })
  | (State.opened, oa) => (none, { s with openedAt := oa })

/-- The observer closures handed out by `SlidingWindowBreaker.Call`. -/
def SWobserveK (s : SlidingWindowBreaker) (now : Int) (k : ObsKind)
    (failure : Bool) : SlidingWindowBreaker :=
  match k with
  | ObsKind.closed => SWobserve s now false failure
  | ObsKind.halfOpen => SWobserve s now true failure

/-! ## One-shot observer deduplication -/

/-- Modelled from the spec: the one-shot deduplicating decorator wrapped
around the observer of every admitted call (spec §4.1 step 3, invariant I1,
design note "One-shot observer": "implement with a one-time-execution guard
(a flag flipped atomically)"). The decorator's own source is not under
`src/` — only its callers are: `Circuit.Call`'s deferred observation and
`observeCtx` both rely on it ("It assumes [Observable.Observe] is
idempotent and deduplicates calls itself", `hoglet.go` line 290). `called`
is the one-shot flag; `delivered` records the invocations that reached the
underlying Observable's `Observe`. -/
structure DedupObserver where
  called : Bool
  delivered : List Bool
deriving DecidableEq, Repr

/-- One invocation of the deduplicated observer: the first flips the flag
and forwards to the underlying `Observe`; later ones are dropped. -/
def dedupObserve (d : DedupObserver) (failure : Bool) : DedupObserver :=
  if d.called then d
  else { called := true, delivered := d.delivered ++ [failure] }

/-- Deliver a sequence of observation attempts in order. -/
def runObserve (d : DedupObserver) (evs : List Bool) : DedupObserver :=
  evs.foldl dedupObserve d

/-- The observation attempts made on an admitted call's observer by
`Circuit.Call` (`hoglet.go` lines 250–276) and `observeCtx` (lines
289–301): the deferred function in `Call` observes exactly once — `true` on
panic, `isFailure(err)` on return — and `observeCtx` observes exactly once
when the call context completes, which the deferred
`cancel(internalCancellation)` guarantees. Their relative order depends on
cancellation timing (`watcherFirst`). -/
def callObservations (deferredValue watcherValue : Bool) (watcherFirst : Bool) :
    List Bool :=
  if watcherFirst then [watcherValue, deferredValue]
  else [deferredValue, watcherValue]

/-! ## Concurrency limiter (`src/unnamed/part_001`, middle section)

`ConcurrencyLimiter(limit, block)` wraps an inner `ObserverFactory` behind
a weighted semaphore. The semaphore is modelled by its free-slot count plus
a counter of performed releases; the inner factory's outcome is a value of
`Except E Unit` (an error or an observer), and the inner observer's own
behaviour is a function returning `none` (normal return) or `some v`
(panic with `v`). -/

/-- A weighted semaphore of unit weights: free slots and the number of
`Release(1)` calls performed so far. -/
structure Sem where
  avail : Int
  releases : ℕ
deriving DecidableEq, Repr

/-- `sem.Release(1)`. -/
def semRelease (s : Sem) : Sem := { avail := s.avail + 1, releases := s.releases + 1 }

/-- Errors produced by the limiter or propagated from the inner factory. -/
inductive LimErr (E : Type) where
  | waitingForSlot
  | concurrencyLimitReached
  | inner (e : E)
deriving DecidableEq, Repr

/-- Result of the limiter's `ObserverForCall`: an observer was produced
(`admitted` — its `Observe` is `wrappedObserve` below), an error was
returned, or (blocking mode only) the caller is still parked in
`sem.Acquire`. -/
inductive LimiterAdmission (E : Type) where
  | admitted
  | refused (err : LimErr E)
  | waits
deriving DecidableEq, Repr

/-- `concurrencyLimiter.ObserverForCall` (part_001 lines 63–72), the shared
inner step run after a slot was acquired:

```go
o, err := cl.next.ObserverForCall(ctx, state)
if err != nil { return nil, err }
return ObserverFunc(func(b bool) { defer cl.sem.Release(1); o.Observe(b) }), nil
```

On an inner error the slot is NOT released. -/
def clObserverForCall {E : Type} (next : Except E Unit) (s : Sem) :
    LimiterAdmission E × Sem :=
  match next with
  | Except.error e => (LimiterAdmission.refused (LimErr.inner e), s)
  | Except.ok _ => (LimiterAdmission.admitted, s)

/-- `concurrencyLimiterBlocking.ObserverForCall` (part_001 lines 78–83):
`sem.Acquire(ctx, 1)` first — a context error yields `ErrWaitingForSlot`
(wrapping the cause), a free slot is taken, otherwise the caller blocks —
then the shared inner step. -/
def clBlockingObserverForCall {E : Type} (ctxCancelled : Bool)
    (next : Except E Unit) (s : Sem) : LimiterAdmission E × Sem :=
  if ctxCancelled then (LimiterAdmission.refused LimErr.waitingForSlot, s)
  else if 1 ≤ s.avail then
    clObserverForCall next { s with avail := s.avail - 1 }
  else (LimiterAdmission.waits, s)

/-- `concurrencyLimiterNonBlocking.ObserverForCall` (part_001 lines 89–94):
`sem.TryAcquire(1)`; failure yields `ErrConcurrencyLimitReached`. -/
def clNonBlockingObserverForCall {E : Type} (next : Except E Unit) (s : Sem) :
    LimiterAdmission E × Sem :=
  if 1 ≤ s.avail then clObserverForCall next { s with avail := s.avail - 1 }
  else (LimiterAdmission.refused LimErr.concurrencyLimitReached, s)

/-- The observer returned on admission (part_001 lines 68–71):
`defer cl.sem.Release(1); o.Observe(b)` — the deferred release runs both
when the inner `Observe` returns and when it panics (the panic then
propagates). -/
def wrappedObserve {P : Type} (innerObserve : Bool → Option P) (s : Sem)
    (b : Bool) : Sem × Option P :=
  match innerObserve b with
  | none => (semRelease s, none)
  | some v => (semRelease s, some v)

/-! ## Circuit construction and validation -/

/-- The breaker policy chosen at construction time. -/
inductive BreakerPolicy where
  | noop
  | ewma (sampleCount : ℕ) (threshold : ℚ)
  | slidingWindow (windowSize : Int) (threshold : ℚ)
deriving DecidableEq, Repr

/-- Modelled from the spec: the `ConfigError` kinds surfaced from
`NewCircuit` "when an option or policy invariant fails (e.g. EWMA without
`halfOpenDelay`, threshold outside [0,1])" (spec §7). The era of the source
with fallible construction is not under `src/` — only its callers and tests
are (`example_test.go`, the `TestWithHalfOpenDelay` in `error.go`'s last
section, `limiter_test.go`). -/
inductive ConfigError where
  | ewmaRequiresHalfOpenDelay
  | thresholdOutOfRange
deriving DecidableEq, Repr

/-- The option sub-struct relevant to validation (`options.go`, second
section): `halfOpenDelay` defaults to `0` (unset). -/
structure CircuitOptions where
  halfOpenDelay : Int
deriving DecidableEq, Repr

/-- Modelled from the spec (§4.1 New): after the user options, the policy
is re-applied "as a last option so it may validate combined settings (e.g.
EWMA requires `halfOpenDelay > 0`; SlidingWindow coerces `halfOpenDelay` to
`windowSize` if unset or larger)"; thresholds must lie in `[0,1]` (§4.2,
§4.3 Validation). -/
def policyFinalize : BreakerPolicy → CircuitOptions →
    Except ConfigError CircuitOptions
  | BreakerPolicy.noop, o => Except.ok o
  | BreakerPolicy.ewma _ t, o =>
      if ¬(0 ≤ t ∧ t ≤ 1) then Except.error ConfigError.thresholdOutOfRange
      else if o.halfOpenDelay ≤ 0 then
        Except.error ConfigError.ewmaRequiresHalfOpenDelay
      else Except.ok o
  | BreakerPolicy.slidingWindow w t, o =>
      if ¬(0 ≤ t ∧ t ≤ 1) then Except.error ConfigError.thresholdOutOfRange
      else Except.ok { o with halfOpenDelay :=
        if o.halfOpenDelay = 0 ∨ w < o.halfOpenDelay then w else o.halfOpenDelay }

/-- A constructed circuit: the wrapped function (possibly `nil`), its
policy and the validated options. -/
structure CircuitModel (IN OUT : Type) where
  f : Option (IN → OUT)
  policy : BreakerPolicy
  options : CircuitOptions

/-- Modelled from the spec (§4.1 New, §6): `NewCircuit(f, policy, options…)
→ Result<Circuit, ConfigError>` — defaults first (`halfOpenDelay`
unset = 0), each option in order (each may fail), finally the policy as the
last, validating option. -/
def NewCircuitModel {IN OUT : Type} (f : Option (IN → OUT))
    (policy : BreakerPolicy)
    (opts : List (CircuitOptions → Except ConfigError CircuitOptions)) :
    Except ConfigError (CircuitModel IN OUT) := do
  let o ← opts.foldlM (fun o opt => opt o) ⟨0⟩
  let o ← policyFinalize policy o
  return ⟨f, policy, o⟩

/-! ## Theorems for the claims C1–C10 (and their witnesses) -/

/-- C8: `State()` returns CLOSED iff `openedAt = 0`; otherwise OPEN exactly when
`halfOpenDelay = 0` or `now - openedAt < halfOpenDelay`, and HALF_OPEN
otherwise; in particular with `halfOpenDelay = 0` a non-zero `openedAt`
reports OPEN at every time `now`, until something stores `0`. -/
theorem circuitState_characterisation (openedAt halfOpenDelay now : Int) :
    (circuitState openedAt halfOpenDelay now = State.closed ↔ openedAt = 0) ∧
    (openedAt ≠ 0 →
      (circuitState openedAt halfOpenDelay now = State.opened ↔
        (halfOpenDelay = 0 ∨ now - openedAt < halfOpenDelay))) ∧
    (openedAt ≠ 0 →
      (circuitState openedAt halfOpenDelay now = State.halfOpen ↔
        (halfOpenDelay ≠ 0 ∧ halfOpenDelay ≤ now - openedAt))) ∧
    (openedAt ≠ 0 → halfOpenDelay = 0 →
      circuitState openedAt halfOpenDelay now = State.opened) := by
  unfold circuitState
  by_cases h0 : openedAt = 0
  · simp [h0]
  · rw [if_neg h0]
    by_cases hd : halfOpenDelay = 0 ∨ now - openedAt < halfOpenDelay
    · rw [if_pos hd]
      refine ⟨iff_of_false (by decide) h0, fun _ => iff_of_true rfl hd,
        fun _ => iff_of_false (by decide) ?_, fun _ _ => rfl⟩
      rintro ⟨hne, hle⟩
      rcases hd with hd | hd
      · exact absurd hd hne
      · omega
    · rw [if_neg hd]
      have hd1 : ¬halfOpenDelay = 0 := fun h => hd (Or.inl h)
      have hd2 : ¬now - openedAt < halfOpenDelay := fun h => hd (Or.inr h)
      exact ⟨iff_of_false (by decide) h0, fun _ => iff_of_false (by decide) hd,
        fun _ => iff_of_true rfl ⟨hd1, by omega⟩, fun _ hz => absurd hz hd1⟩

/-- Witness for `circuitState_characterisation` at `openedAt = 5`,
`halfOpenDelay = 0`, `now = 1000`. -/
theorem circuitState_characterisation_witness :
    (5 : Int) ≠ 0 ∧ circuitState 5 0 1000 = State.opened :=
  ⟨by decide, ((circuitState_characterisation 5 0 1000).2.2.2 (by decide) rfl)⟩

/-- C2: the half-open "re-stamp" of `openedAt` in `stateForCall` never takes
effect. Concrete run: `openedAt = 1000000`, `halfOpenDelay = 500000`,
`now = 2000000` — the circuit is HALF_OPEN, `stateForCall` routes the
re-stamp through `setOpenedAt 1000000 2000000 = CompareAndSwap(0, now)`,
which fails because `openedAt ≠ 0`; `openedAt` stays `1000000` and a second
caller at the same instant still sees HALF_OPEN. Had `stateForCall`
performed the unconditional store the claim (and spec I3) describe,
`openedAt` would be `2000000` and the second caller would see OPEN. -/
theorem stateForCall_restamp_never_fires :
    stateForCall 1000000 500000 2000000 = (State.halfOpen, 1000000) ∧
    circuitState 1000000 500000 2000000 = State.halfOpen ∧
    circuitState 2000000 500000 2000000 = State.opened := by
  refine ⟨?_, ?_, ?_⟩ <;> decide

/-- C3 counterexample: for the freshly constructed `NewEWMABreaker 10 (1/2)`
(decay `= 1/3`), the first-ever `observe(halfOpen=false, failure=true)` does
NOT set the failure rate to exactly `1.0`: the sentinel is a positive
subnormal, so the `failureRate == 0` re-seeding branch does not fire and the
new rate is the blend `1*(1/3) + sentinel*(2/3) ≠ 1`. (Under f64 rounding
the result is `0.3333…`, likewise `≠ 1`.) -/
theorem EWMAobserve_first_failure_blends_sentinel :
    (EWMAobserve (NewEWMABreaker 10 (1/2) 1000000) 0 false true).failureRate =
      1 * (1 / 3) + smallestNonzeroFloat64 * (1 - 1 / 3) ∧
    (EWMAobserve (NewEWMABreaker 10 (1/2) 1000000) 0 false true).failureRate ≠ 1 := by
  have hsent : smallestNonzeroFloat64 ≠ 0 := by
    unfold smallestNonzeroFloat64
    positivity
  constructor
  · unfold EWMAobserve NewEWMABreaker
    norm_num [hsent]
  · unfold EWMAobserve NewEWMABreaker
    norm_num [hsent]
    intro h
    unfold smallestNonzeroFloat64 at *
    norm_num at h

/-- C3 amended: the first observation of a constructed `EWMABreaker` (with
`threshold ≠ 0`, not half-open) blends `v` against the sentinel:
`rate = v*decay + sentinel*(1-decay)`; only a breaker whose previous rate
reads exactly `0` (e.g. the zero value, never the constructed sentinel)
takes `v` unblended. -/
theorem EWMAobserve_first_observation (sampleCount : ℕ) (threshold : ℚ)
    (halfOpenDelay now : Int) (failure : Bool) (ht : threshold ≠ 0) :
    (EWMAobserve (NewEWMABreaker sampleCount threshold halfOpenDelay) now false
        failure).failureRate =
      (if failure then (1 : ℚ) else 0) *
          (NewEWMABreaker sampleCount threshold halfOpenDelay).decay +
        smallestNonzeroFloat64 *
          (1 - (NewEWMABreaker sampleCount threshold halfOpenDelay).decay) := by
  have hsent : smallestNonzeroFloat64 ≠ 0 := by
    unfold smallestNonzeroFloat64
    positivity
  unfold EWMAobserve NewEWMABreaker
  simp only [ht, if_false, Bool.and_false, Bool.false_and, hsent]
  cases failure <;>
    · simp [hsent]
      split <;> rfl

/-- Witness for `EWMAobserve_first_observation` at
`NewEWMABreaker 10 (1/2)`, a failure as first observation. -/
theorem EWMAobserve_first_observation_witness :
    ((1 : ℚ) / 2 ≠ 0) ∧
    (EWMAobserve (NewEWMABreaker 10 (1/2) 7) 3 false true).failureRate =
      (if true then (1 : ℚ) else 0) * (NewEWMABreaker 10 (1/2) 7).decay +
        smallestNonzeroFloat64 * (1 - (NewEWMABreaker 10 (1/2) 7).decay) :=
  ⟨by norm_num, EWMAobserve_first_observation 10 (1/2) 7 3 true (by norm_num)⟩

/-- C4: the weight applied to the "last" bucket is NOT
`max(0, windowSize − elapsed)/windowSize`. Concrete run: `windowSize = 10s`,
`currentStart = 0`, `now = 5s` (so `elapsed = 5s`): the code's
`lastWindowWeight` is `(5 − 10)/10 = −1/2`, outside `[0, 1]` and the
negation of the claimed `max(0, 10 − 5)/10 = 1/2`; with one failure in the
last bucket and none in the current one, `weightedFailures = −1/2` instead
of the claimed `1/2`. (The sign of a float division is exact, so f64
evaluation gives the same `−0.5`.) The last conjunct runs the whole
`observe` on that state (threshold `1/10`, one success observed): the code's
rate is `(−1/2)/(1/2) = −1`, so the breaker stays closed (`openedAt = 0`),
while the claimed weight would give rate `(1/2)/(3/2) = 1/3 > 1/10` and
open it. -/
theorem lastWindowWeight_is_negated :
    lastWindowWeight 5000000 0 10000000 = -(1/2) ∧
    ¬(0 ≤ lastWindowWeight 5000000 0 10000000) ∧
    max 0 (secondsOfMicros (10000000 - 5000000) / secondsOfMicros 10000000) =
      1/2 ∧
    weightedFailures 1 0 (lastWindowWeight 5000000 0 10000000) = -(1/2) ∧
    SWobserve
        { windowSize := 10000000, threshold := 1/10, currentStart := 0,
          currentSuccessCount := 0, currentFailureCount := 0,
          lastSuccessCount := 0, lastFailureCount := 1,
          halfOpenDelay := 500000, openedAt := 0 } 5000000 false false =
      { windowSize := 10000000, threshold := 1/10, currentStart := 0,
        currentSuccessCount := 1, currentFailureCount := 0,
        lastSuccessCount := 0, lastFailureCount := 1,
        halfOpenDelay := 500000, openedAt := 0 } := by
  refine ⟨?_, ?_, ?_, ?_, ?_⟩ <;>
    norm_num [lastWindowWeight, secondsOfMicros, weightedFailures, SWobserve,
      weightedTotal]

/-- C7: a call made while the breaker is OPEN (`openedAt ≠ 0` and
`now − openedAt < halfOpenDelay`) returns `ErrCircuitOpen`, does not invoke
the wrapped function, and leaves the breaker state — EWMA failure rate,
sliding-window counters, `openedAt` — exactly unchanged, for both breakers. -/
theorem openCircuit_rejects_without_feedback {OUT E P : Type} [Inhabited OUT]
    (isFailure : Option E → Bool) (outcome : FnOutcome OUT E P) (now : Int)
    (e : EWMABreaker) (s : SlidingWindowBreaker) :
    (e.openedAt ≠ 0 → now - e.openedAt < e.halfOpenDelay →
      circuitCall EWMAcall EWMAobserveK isFailure (some outcome) e now =
        ⟨CallExit.ret default (some HogErr.circuitOpen), e, false⟩) ∧
    (s.openedAt ≠ 0 → now - s.openedAt < s.halfOpenDelay →
      circuitCall SWcall SWobserveK isFailure (some outcome) s now =
        ⟨CallExit.ret default (some HogErr.circuitOpen), s, false⟩) := by
  constructor
  · intro h1 h2
    have hball : EWMAcall e now = (none, e) := by
      unfold EWMAcall callableState
      rw [if_neg h1, if_pos h2]
    unfold circuitCall
    rw [hball]
  · intro h1 h2
    have hball : SWcall s now = (none, s) := by
      unfold SWcall callableState
      rw [if_neg h1, if_pos h2]
    unfold circuitCall
    rw [hball]

/-- Witness for `openCircuit_rejects_without_feedback`: both breakers opened
at `t = 1000` with `halfOpenDelay = 500000`, called at `now = 2000`. -/
theorem openCircuit_rejects_without_feedback_witness :
    ((1000 : Int) ≠ 0 ∧ (2000 : Int) - 1000 < 500000) ∧
    circuitCall EWMAcall EWMAobserveK (fun err : Option Unit => err.isSome)
        (some (FnOutcome.returns 0 none : FnOutcome Int Unit String))
        { NewEWMABreaker 10 (1/2) 500000 with openedAt := 1000 } 2000 =
      ⟨CallExit.ret default (some HogErr.circuitOpen),
        { NewEWMABreaker 10 (1/2) 500000 with openedAt := 1000 }, false⟩ := by
  refine ⟨⟨by decide, by decide⟩, ?_⟩
  exact (openCircuit_rejects_without_feedback (fun err : Option Unit => err.isSome)
    (FnOutcome.returns 0 none : FnOutcome Int Unit String) 2000
    { NewEWMABreaker 10 (1/2) 500000 with openedAt := 1000 }
    { windowSize := 1000000, threshold := 1/2, currentStart := 0,
      currentSuccessCount := 0, currentFailureCount := 0, lastSuccessCount := 0,
      lastFailureCount := 0, halfOpenDelay := 500000, openedAt := 1000 }).1
    (by decide) (by decide)

/-- C9: if admission succeeded and the wrapped function panics with value
`v`, `Circuit.Call` delivers a single failure observation (`observe …
true`) and re-raises the same panic value `v`; the exit is the panic — no
error return is synthesised. Holds for any breaker. -/
theorem panic_observed_as_failure_and_reraised {σ OUT E P : Type}
    [Inhabited OUT] (breakerCall : σ → Int → Option ObsKind × σ)
    (observe : σ → Int → ObsKind → Bool → σ) (isFailure : Option E → Bool)
    (v : P) (s s1 : σ) (k : ObsKind) (now : Int)
    (hadmission : breakerCall s now = (some k, s1)) :
    circuitCall breakerCall observe isFailure
        (some (FnOutcome.panics v : FnOutcome OUT E P)) s now =
      ⟨CallExit.panicked v, observe s1 now k true, true⟩ := by
  unfold circuitCall
  rw [hadmission]

/-- Witness for `panic_observed_as_failure_and_reraised`: a closed
`EWMABreaker`, wrapped function panicking with `"boom"`. -/
theorem panic_observed_as_failure_and_reraised_witness :
    EWMAcall (NewEWMABreaker 10 (1/2) 500000) 5 =
      (some ObsKind.closed, NewEWMABreaker 10 (1/2) 500000) ∧
    circuitCall EWMAcall EWMAobserveK (fun err : Option Unit => err.isSome)
        (some (FnOutcome.panics "boom" : FnOutcome Int Unit String))
        (NewEWMABreaker 10 (1/2) 500000) 5 =
      ⟨CallExit.panicked "boom",
        EWMAobserveK (NewEWMABreaker 10 (1/2) 500000) 5 ObsKind.closed true,
        true⟩ :=
  ⟨rfl, panic_observed_as_failure_and_reraised EWMAcall EWMAobserveK
    (fun err : Option Unit => err.isSome) "boom" _ _ ObsKind.closed 5 rfl⟩

/-- C10: with a `nil` wrapped function, `Circuit.Call` returns the zero
value of the output type and a `nil` error, leaves the breaker state
untouched and invokes nothing — uniformly in the breaker (`breakerCall` and
`observe` are arbitrary, so neither is consulted). -/
theorem nilFunction_call_is_noop {σ OUT E P : Type} [Inhabited OUT]
    (breakerCall : σ → Int → Option ObsKind × σ)
    (observe : σ → Int → ObsKind → Bool → σ) (isFailure : Option E → Bool)
    (s : σ) (now : Int) :
    circuitCall breakerCall observe isFailure
        (none : Option (FnOutcome OUT E P)) s now =
      ⟨CallExit.ret default none, s, false⟩ := rfl

/-- C1: for every admitted call that returns or panics, the underlying
Observable's `Observe` runs exactly once in total, counting both the
deferred observation in `Call` and the one from `observeCtx`, whatever the
observed values and whichever happens first. -/
theorem observe_exactly_once (deferredValue watcherValue : Bool)
    (watcherFirst : Bool) :
    (runObserve ⟨false, []⟩
        (callObservations deferredValue watcherValue watcherFirst)).delivered.length
      = 1 := by
  cases watcherFirst <;> simp [runObserve, callObservations, dedupObserve]

/-- C5 counterexample: blocking limiter with one free slot, context alive,
inner factory refusing (e.g. the circuit's own factory returning
`ErrCircuitOpen`). The slot is acquired (`avail` drops `1 → 0`), the inner
error is propagated, and `releases = 0`: no `Release` of the acquired slot
occurs on this path — and none ever follows, since no observer was
produced. The claim's "exactly one Release … including when the inner
observer factory refuses the call with an error after the slot was
acquired" fails here. -/
theorem limiter_leaks_slot_on_inner_refusal :
    clBlockingObserverForCall false (Except.error "circuit open")
        ⟨1, 0⟩ =
      (LimiterAdmission.refused (LimErr.inner "circuit open"),
        { avail := 0, releases := 0 }) ∧
    clNonBlockingObserverForCall (Except.error "circuit open") ⟨1, 0⟩ =
      (LimiterAdmission.refused (LimErr.inner "circuit open"),
        { avail := 0, releases := 0 }) := by
  constructor <;> rfl

/-- C5 amended: (a) when the inner factory returns an observer, admission
in either mode holds exactly one slot, and the single (deduplicated)
invocation of the wrapped observer performs exactly one `Release` — on
normal return and on panic alike; (b) when the inner factory refuses after
the slot was acquired, the limiter returns the error with the slot still
held and performs no `Release`. -/
theorem limiter_release_exactly_once_when_admitted {E P : Type}
    (innerObserve : Bool → Option P) (s : Sem) (b : Bool) (e : E) (o : Unit) :
    ((wrappedObserve innerObserve s b).1.releases = s.releases + 1 ∧
      (wrappedObserve innerObserve s b).1.avail = s.avail + 1) ∧
    (1 ≤ s.avail →
      clBlockingObserverForCall false (Except.ok o : Except E Unit) s =
        (LimiterAdmission.admitted, { s with avail := s.avail - 1 }) ∧
      clNonBlockingObserverForCall (Except.ok o : Except E Unit) s =
        (LimiterAdmission.admitted, { s with avail := s.avail - 1 })) ∧
    (1 ≤ s.avail →
      clBlockingObserverForCall false (Except.error e) s =
        (LimiterAdmission.refused (LimErr.inner e),
          { s with avail := s.avail - 1 }) ∧
      clNonBlockingObserverForCall (Except.error e) s =
        (LimiterAdmission.refused (LimErr.inner e),
          { s with avail := s.avail - 1 })) := by
  refine ⟨⟨?_, ?_⟩, fun h => ⟨?_, ?_⟩, fun h => ⟨?_, ?_⟩⟩
  · unfold wrappedObserve
    cases innerObserve b <;> rfl
  · unfold wrappedObserve
    cases innerObserve b <;> rfl
  · unfold clBlockingObserverForCall
    rw [if_neg (by simp), if_pos h]
    rfl
  · unfold clNonBlockingObserverForCall
    rw [if_pos h]
    rfl
  · unfold clBlockingObserverForCall
    rw [if_neg (by simp), if_pos h]
    rfl
  · unfold clNonBlockingObserverForCall
    rw [if_pos h]
    rfl

/-- Witness for `limiter_release_exactly_once_when_admitted` at a semaphore
with one free slot. -/
theorem limiter_release_exactly_once_when_admitted_witness :
    (1 : Int) ≤ (⟨1, 0⟩ : Sem).avail ∧
    clBlockingObserverForCall false (Except.ok () : Except String Unit) ⟨1, 0⟩ =
      (LimiterAdmission.admitted, { avail := 0, releases := 0 }) :=
  ⟨by decide,
    ((limiter_release_exactly_once_when_admitted
        (fun _ => (none : Option Unit)) ⟨1, 0⟩ true "e" ()).2.1
      (by decide)).1⟩

/-- C6: for every wrapped function `f`, constructing a circuit with an EWMA
policy and no `WithHalfOpenDelay` option (so the delay keeps its zero
default) yields a `ConfigError` — never a usable circuit. -/
theorem ewma_without_halfOpenDelay_is_config_error {IN OUT : Type}
    (f : Option (IN → OUT)) (sampleCount : ℕ) (threshold : ℚ) :
    ∃ ce : ConfigError,
      NewCircuitModel f (BreakerPolicy.ewma sampleCount threshold) [] =
        Except.error ce := by
  unfold NewCircuitModel policyFinalize
  by_cases ht : 0 ≤ threshold ∧ threshold ≤ 1
  · refine ⟨ConfigError.ewmaRequiresHalfOpenDelay, ?_⟩
    simp [ht]
  · refine ⟨ConfigError.thresholdOutOfRange, ?_⟩
    simp [ht]

end Hoglet
